import Mathlib

/-!
Shallow embedding of `osxkeychain/osxkeychain.go` (package `osxkeychain`).

The Go file drives the macOS Security framework through cgo.  The native
CoreFoundation / Security layer is not part of the repository, so it is
modelled here by small Lean functions that follow the documented behaviour of
the corresponding CF calls (each such model carries a doc comment naming the
native call and the documented behaviour it reflects).  Everything else is a
direct translation of the Go functions, keeping their names, their control
flow and their error points.

Conventions:
- native object references (`C.CFTypeRef`) become the inductive `CFType`;
  a possibly-nil reference is `Option CFType` (with `none` for `NULL`);
- Go `(value, error)` returns become `Except`; every Go error return in the
  translated functions returns the zero value for the result (`nil` slice),
  which `Except.error` reflects faithfully for `FindIdentity`;
- `FindAndValidateIdentity` returns its accumulated slice together with the
  error, so its model returns a record holding both (plus counters for the
  native certificate-extraction and validity-check calls, used to state
  claims about which calls are performed);
- `ExportFromKeychain` is instrumented with a trace of native
  allocation/release events so that acquisition/release balance and the
  empty-input behaviour (a Go runtime panic at `&itemRefsToExport[0]`) can be
  stated; the outcome of the native `SecItemExport` call and of the file
  write are oracle parameters, since they are outside the repository.
-/

deriving instance DecidableEq for Except

namespace Osxkeychain

/-- Number of bytes of the UTF-8 encoding of a character (1 to 4), by the
code-point ranges of RFC 3629. -/
def charUtf8Size (c : Char) : Nat :=
  if c.toNat ≤ 0x7F then 1
  else if c.toNat ≤ 0x7FF then 2
  else if c.toNat ≤ 0xFFFF then 3
  else 4

/-- Number of UTF-16 code units of a character (1, or 2 for a surrogate
pair).  `CFStringGetLength` counts these units. -/
def charUtf16Size (c : Char) : Nat :=
  if c.toNat < 0x10000 then 1 else 2

/-- Total UTF-8 byte size of a string. -/
def strUtf8Size (s : String) : Nat :=
  (s.data.map charUtf8Size).sum

/-- Total UTF-16 code-unit count of a string. -/
def strUtf16Size (s : String) : Nat :=
  (s.data.map charUtf16Size).sum

/-- Model of a native `CFStringRef`: the text it holds, plus a flag telling
whether the native `CFStringGetCString` extraction succeeds on it (the native
call can fail for reasons outside the string content, e.g. encoding loss;
the flag abstracts that native state). -/
structure CFString where
  content : String
  getCStringOk : Bool
deriving DecidableEq, Repr

/-- Model of a non-nil native `CFTypeRef`: either a string object or some
other object identified by an id (identities, certificates, ...).
`CFGetTypeID val == CFStringGetTypeID()` is modelled by the constructor
test. -/
inductive CFType where
  | string (s : CFString)
  | ref (id : Nat)
deriving DecidableEq, Repr

/-- Model of a native `CFDictionaryRef` as returned by the keychain search:
attribute entries keyed by strings, compared by content (CF dictionaries
built by the framework compare keys with `CFEqual`). -/
def CFDict := List (String × CFType)

instance : DecidableEq CFDict := by
  unfold CFDict
  infer_instance

/-- Content-keyed lookup in a dictionary model (first matching entry). -/
def cfDictLookup (dict : CFDict) (key : CFString) : Option CFType :=
  (dict.find? (fun p => p.1 == key.content)).map (fun p => p.2)

/-- Model of `CFDictionaryGetValueIfPresent(dict, key, value)`.  Documented
behaviour: returns whether the key is present; fills `*value` only when the
`value` pointer is non-NULL ("This value may be NULL, in which case the value
is not returned but the return value still indicates whether the key-value
pair was present").  `outPtrIsNull` states whether the caller passed NULL for
`value`; the second component is what was written through the pointer. -/
def CFDictionaryGetValueIfPresent (dict : CFDict) (key : CFString)
    (outPtrIsNull : Bool) : Bool × Option CFType :=
  match cfDictLookup dict key with
  | some v => (true, if outPtrIsNull then none else some v)
  | none => (false, none)

/-- Model of `CFDictionaryGetValue(dict, key)`: the value, or NULL (`none`)
when the key is absent. -/
def CFDictionaryGetValue (dict : CFDict) (key : CFString) : Option CFType :=
  cfDictLookup dict key

/-- Model of `convertCStringToCFString` (osxkeychain.go lines 276-278):
`CFStringCreateWithCString(kCFAllocatorDefault, cstring, kCFStringEncodingUTF8)`
builds a native string object holding the given text. -/
def convertCStringToCFString (cstring : String) : CFString :=
  { content := cstring, getCStringOk := true }

/-- Errors of the dictionary-access helpers, one constructor per distinct
error return in the Go source. -/
inductive DictErr where
  /-- getCFDictValueRef: Key does not exist (line 253). -/
  | keyNotFound
  /-- getCFDictValueCFStringRef: Nil value returned (line 266). -/
  | nilValue
  /-- getCFDictValueCFStringRef: value is not a string (line 270). -/
  | notAString
  /-- getCFDictValueUTF8String: CFStringGetCString failed (line 296). -/
  | cfStringGetCStringFailed
deriving DecidableEq, Repr

/-- Embedding of `getCFDictValueRef` (lines 248-258).  The Go code declares
`var retVal C.CFTypeRef` (zero value: nil) and passes
`(*unsafe.Pointer)(retVal)` — a conversion of the nil VALUE, not the address
`&retVal` — as the out-pointer of `CFDictionaryGetValueIfPresent`, so the
native call receives a NULL out-pointer (`outPtrIsNull := true`) and never
writes the result value; the presence boolean is still returned.  On the
present branch the value is fetched by a second, unconditional
`CFDictionaryGetValue` call (line 257). -/
def getCFDictValueRef (dict : CFDict) (key : CFString) :
    Except DictErr (Option CFType) :=
  let exist := (CFDictionaryGetValueIfPresent dict key true).1
  if exist = false then
    Except.error DictErr.keyNotFound
  else
    Except.ok (CFDictionaryGetValue dict key)

/-- Embedding of `getCFDictValueCFStringRef` (lines 260-274): propagates the
lookup error, rejects a nil value, then checks
`CFGetTypeID(val) != CFStringGetTypeID()`. -/
def getCFDictValueCFStringRef (dict : CFDict) (key : CFString) :
    Except DictErr CFString :=
  match getCFDictValueRef dict key with
  | Except.error e => Except.error e
  | Except.ok none => Except.error DictErr.nilValue
  | Except.ok (some val) =>
    match val with
    | CFType.string s => Except.ok s
    | CFType.ref _ => Except.error DictErr.notAString

/-- Model of `CFStringGetLength`: the length of the string in UTF-16 code
units, as documented for CFString. -/
def CFStringGetLength (s : CFString) : Nat :=
  strUtf16Size s.content

/-- Model of `CFStringGetMaximumSizeForEncoding(len, kCFStringEncodingUTF8)`:
the documented worst-case UTF-8 expansion is 3 bytes per UTF-16 code unit. -/
def CFStringGetMaximumSizeForEncoding (len : Nat) : Nat :=
  3 * len

/-- Model of `CFStringGetCString(str, buffer, bufferSize, kCFStringEncodingUTF8)`:
succeeds (returning the extracted text, which Go then reads back with
`C.GoString`) when the native conversion works for this string and the
buffer can hold the UTF-8 bytes plus the NUL terminator; returns `none`
(native `false`) otherwise. -/
def CFStringGetCString (s : CFString) (bufferSize : Nat) : Option String :=
  if s.getCStringOk && decide (strUtf8Size s.content + 1 ≤ bufferSize) then
    some s.content
  else
    none

/-- Embedding of `getCFDictValueUTF8String` (lines 280-299): fetch the value
as a CFString, compute `charUTF8Len := CFStringGetMaximumSizeForEncoding
(CFStringGetLength val) + 1`, allocate a buffer of exactly that size and
extract into it with `CFStringGetCString`.  (The nil re-check of line 286 is
subsumed: `getCFDictValueCFStringRef` never returns a nil string.) -/
def getCFDictValueUTF8String (dict : CFDict) (key : CFString) :
    Except DictErr String :=
  match getCFDictValueCFStringRef dict key with
  | Except.error e => Except.error e
  | Except.ok valCFStringRef =>
    let strLen := CFStringGetLength valCFStringRef
    let charUTF8Len := CFStringGetMaximumSizeForEncoding strLen + 1
    match CFStringGetCString valCFStringRef charUTF8Len with
    | none => Except.error DictErr.cfStringGetCStringFailed
    | some str => Except.ok str

/-- Helper for Go `strings.Contains`: does `sub` occur as a contiguous run
inside the character list? -/
def containsSub (sub : List Char) : List Char → Bool
  | [] => sub.isEmpty
  | c :: rest => sub.isPrefixOf (c :: rest) || containsSub sub rest

/-- Model of Go `strings.Contains(s, sub)` (case-sensitive substring test;
for valid Unicode strings byte-level containment coincides with
character-level containment, since a UTF-8 lead byte never matches inside a
multi-byte character). -/
def goStringContains (s sub : String) : Bool :=
  containsSub sub.data s.data

/-- The label filter of `FindIdentity` (lines 215-223): keep an entry with
label `labl` iff `labl == identityLabel` when `isFullLabelMatch`, else iff
`strings.Contains(labl, identityLabel)`. -/
def labelMatches (isFullLabelMatch : Bool) (identityLabel labl : String) : Bool :=
  if isFullLabelMatch then labl == identityLabel
  else goStringContains labl identityLabel

/-- Embedding of `IdentityWithRefModel` (lines 134-138).  `KeychainRef` holds
the retained `v_Ref` value (`Option` because the native field is a possibly
nil `CFTypeRef`). -/
structure IdentityWithRefModel where
  KeychainRef : Option CFType
  Label : String
deriving DecidableEq, Repr

/-- Errors of `FindIdentity`, one constructor per distinct error return. -/
inductive KCError where
  /-- Failed to call SecItemCopyMatch - OSStatus (line 186). -/
  | copyMatchingFailed (status : Int)
  /-- No Identity (certificate + related private key) found (line 193). -/
  | notFound
  /-- FindIdentity: failed to get labl property (line 212). -/
  | lablPropertyFailed (e : DictErr)
  /-- FindIdentity: failed to get v_Ref property (line 228). -/
  | vrefPropertyFailed (e : DictErr)
deriving DecidableEq, Repr

/-- The per-entry loop of `FindIdentity` (lines 199-239): extract the `labl`
attribute of every entry (abort on failure), apply the label filter
(`continue` on a non-match), extract and retain `v_Ref` for matching entries
(abort on failure), and accumulate the records in discovery order.  A Go
abort returns `nil, err`, which `Except.error` reflects (no partial list is
carried). -/
def findIdentityLoop (identityLabel : String) (isFullLabelMatch : Bool) :
    List CFDict → Except KCError (List IdentityWithRefModel)
  | [] => Except.ok []
  | d :: rest =>
    match getCFDictValueUTF8String d (convertCStringToCFString "labl") with
    | Except.error e => Except.error (KCError.lablPropertyFailed e)
    | Except.ok labl =>
      if labelMatches isFullLabelMatch identityLabel labl then
        match getCFDictValueRef d (convertCStringToCFString "v_Ref") with
        | Except.error e => Except.error (KCError.vrefPropertyFailed e)
        | Except.ok vrefRef =>
          match findIdentityLoop identityLabel isFullLabelMatch rest with
          | Except.error e => Except.error e
          | Except.ok l =>
            Except.ok ({ KeychainRef := vrefRef, Label := labl } :: l)
      else
        findIdentityLoop identityLabel isFullLabelMatch rest

/-- Embedding of `FindIdentity` (lines 174-242).  The outcome of the native
`SecItemCopyMatching` base query is the oracle parameter `searchResult`
(`Except.error status` for a non-success OSStatus, `Except.ok identities`
for the returned array of attribute dictionaries).  A returned array with
fewer than one element yields the not-found error (lines 191-194); otherwise
the entries are filtered by label. -/
def FindIdentity (searchResult : Except Int (List CFDict))
    (identityLabel : String) (isFullLabelMatch : Bool) :
    Except KCError (List IdentityWithRefModel) :=
  match searchResult with
  | Except.error status => Except.error (KCError.copyMatchingFailed status)
  | Except.ok identities =>
    if identities.length < 1 then Except.error KCError.notFound
    else findIdentityLoop identityLabel isFullLabelMatch identities

/-- An attribute dictionary as the keychain returns it for an identity:
a string `labl` attribute and a `v_Ref` reference (used to build concrete
stores in the theorems). -/
def mkIdentityDict (labl : String) (vrefId : Nat) : CFDict :=
  [("labl", CFType.string (convertCStringToCFString labl)),
   ("v_Ref", CFType.ref vrefId)]

/-- Errors of `FindAndValidateIdentity`, one per distinct error return. -/
inductive FAVError where
  /-- Failed to find Identity (line 146), wrapping the FindIdentity error. -/
  | findFailed (e : KCError)
  /-- Failed to read certificate data (line 157), wrapping the extraction
  error message. -/
  | certReadFailed (e : String)
deriving DecidableEq, Repr

/-- Result of `FindAndValidateIdentity`: the Go function returns its
accumulated slice TOGETHER with the error (`return validIdentityRefs, err`),
so both are carried; the two counters record how many native
certificate-extraction (`GetCertificateDataFromIdentityRef`) and
validity-check (`certutil.CheckCertificateValidity`) calls were made. -/
structure FAVResult where
  identities : List IdentityWithRefModel
  err : Option FAVError
  certExtractionCalls : Nat
  validityCheckCalls : Nat
deriving DecidableEq, Repr

/-- Whether the validation loop keeps a candidate: certificate extraction
succeeds and the validity check passes. -/
def favKeep {α : Type} (extractCert : Option CFType → Except String α)
    (check : α → Except String Unit) (r : IdentityWithRefModel) : Bool :=
  match extractCert r.KeychainRef with
  | Except.error _ => false
  | Except.ok cert =>
    match check cert with
    | Except.ok _ => true
    | Except.error _ => false

/-- The validation loop of `FindAndValidateIdentity` (lines 153-166):
extract the certificate of each candidate in order — on failure return the
candidates accumulated so far paired with the error; on a validity-check
failure skip the candidate and continue; otherwise append it.
`extractCert` and `check` are oracle parameters for the external
`GetCertificateDataFromIdentityRef` and `certutil.CheckCertificateValidity`
collaborators (the certificate type `α` is abstract). -/
def favLoop {α : Type} (extractCert : Option CFType → Except String α)
    (check : α → Except String Unit) :
    List IdentityWithRefModel → FAVResult
  | [] => { identities := [], err := none,
            certExtractionCalls := 0, validityCheckCalls := 0 }
  | r :: rest =>
    match extractCert r.KeychainRef with
    | Except.error e =>
      { identities := [], err := some (FAVError.certReadFailed e),
        certExtractionCalls := 1, validityCheckCalls := 0 }
    | Except.ok cert =>
      match check cert with
      | Except.error _ =>
        let res := favLoop extractCert check rest
        { identities := res.identities, err := res.err,
          certExtractionCalls := res.certExtractionCalls + 1,
          validityCheckCalls := res.validityCheckCalls + 1 }
      | Except.ok _ =>
        let res := favLoop extractCert check rest
        { identities := r :: res.identities, err := res.err,
          certExtractionCalls := res.certExtractionCalls + 1,
          validityCheckCalls := res.validityCheckCalls + 1 }

/-- Embedding of `FindAndValidateIdentity` (lines 143-169): call
`FindIdentity` (error → return nil with the wrapped error), return nil with
no error when fewer than one identity was found, else run the validation
loop. -/
def FindAndValidateIdentity {α : Type}
    (searchResult : Except Int (List CFDict))
    (extractCert : Option CFType → Except String α)
    (check : α → Except String Unit)
    (identityLabel : String) (isFullLabelMatch : Bool) : FAVResult :=
  match FindIdentity searchResult identityLabel isFullLabelMatch with
  | Except.error e =>
    { identities := [], err := some (FAVError.findFailed e),
      certExtractionCalls := 0, validityCheckCalls := 0 }
  | Except.ok foundIdentityRefs =>
    if foundIdentityRefs.length < 1 then
      { identities := [], err := none,
        certExtractionCalls := 0, validityCheckCalls := 0 }
    else
      favLoop extractCert check foundIdentityRefs

/-- The `kSecKeySecurePassphrase` flag of `SecKeyImportExportFlags` (value 2
in Security framework headers): the native layer itself prompts the user for
a passphrase during export. -/
def kSecKeySecurePassphrase : Nat := 2

/-- Embedding of the `C.SecItemImportExportKeyParameters` struct as
`ExportFromKeychain` fills it (lines 31-48).  `passphrase` and the alert
strings hold the contents of the CFStrings stored in the struct, `none`
standing for a nil field. -/
structure SecItemImportExportKeyParameters where
  flags : Nat
  passphrase : Option String
  alertTitle : Option String
  alertPrompt : Option String
deriving DecidableEq, Repr

/-- Native calls made by `ExportFromKeychain`, recorded in order.
Allocation events: `cStringAlloc` (`C.CString`), `cfStringCreate`
(`CFStringCreateWithCString` inside `convertCStringToCFString`),
`cfArrayCreate` (`CFArrayCreate`), `cfDataAcquire` (ownership of the
`exportedData` CFData handed over by a successful `SecItemExport`).
Release events: `cStringFree` (`C.free`), `cfRelease` (`C.CFRelease`).
`secItemExport` marks the export call itself. -/
inductive NativeEvent where
  | cStringAlloc
  | cStringFree
  | cfStringCreate
  | cfArrayCreate
  | secItemExport
  | cfDataAcquire
  | cfRelease
deriving DecidableEq, Repr

/-- Errors of `ExportFromKeychain`, one per distinct error return. -/
inductive ExportError where
  /-- SecItemExport: error (OSStatus) (line 66). -/
  | secItemExportFailed (status : Int)
  /-- ExportFromKeychain: failed to convert export data - nil or empty
  (line 74). -/
  | emptyExportData
  /-- ExportFromKeychain: failed to write into file (line 78). -/
  | fileWriteFailed (e : String)
deriving DecidableEq, Repr

/-- Outcome of a run of `ExportFromKeychain`: normal success, an error
return, or a Go runtime panic (deferred frees still run while panicking). -/
inductive ExportOutcome where
  | ok
  | goPanic (msg : String)
  | err (e : ExportError)
deriving DecidableEq, Repr

/-- Everything observable about one run of `ExportFromKeychain`: its
outcome, the ordered trace of native events, and — when `SecItemExport` was
reached — the array contents and parameter struct passed to it. -/
structure ExportRun where
  outcome : ExportOutcome
  events : List NativeEvent
  exportCall : Option (List CFType × SecItemImportExportKeyParameters)
deriving DecidableEq, Repr

/-- Is the event an acquisition of a native object? -/
def isAcquireEvent : NativeEvent → Bool
  | NativeEvent.cStringAlloc => true
  | NativeEvent.cfStringCreate => true
  | NativeEvent.cfArrayCreate => true
  | NativeEvent.cfDataAcquire => true
  | _ => false

/-- Is the event a release of a native object? -/
def isReleaseEvent : NativeEvent → Bool
  | NativeEvent.cStringFree => true
  | NativeEvent.cfRelease => true
  | _ => false

/-- Total native acquisitions in a trace. -/
def nativeAcquireTotal (events : List NativeEvent) : Nat :=
  (events.filter isAcquireEvent).length

/-- Total native releases in a trace. -/
def nativeReleaseTotal (events : List NativeEvent) : Nat :=
  (events.filter isReleaseEvent).length

/-- Embedding of `ExportFromKeychain` (lines 26-84), instrumented with the
native-event trace.  Oracle parameters stand for the behaviour of external
collaborators: `exportStatus` is the OSStatus returned by `SecItemExport`
(0 = `errSecSuccess`), `exportedData` the bytes of the CFData it produces on
success, and `writeResult` the outcome of `fileutil.WriteBytesToFile`.

Control flow of the source, in order:
- line 27: `passphraseCString := C.CString("")`, freed by a deferred
  `C.free` on every exit (including a panic);
- lines 35-48: fill the parameter struct; the interactive branch allocates a
  prompt C string (deferred free) and a CFString from it, the fixed-empty
  branch allocates a CFString from the empty passphrase C string — neither
  CFString is ever released by the source;
- line 51: `ptr := (*unsafe.Pointer)(&itemRefsToExport[0])` — on an empty
  slice this indexing panics (runtime error: index out of range), before
  `CFArrayCreate` and `SecItemExport` are reached, but after the C-string
  and CFString allocations above; the deferred frees run during unwinding;
- lines 52-56: `CFArrayCreate` over the input handles — never released;
- lines 59-67: `SecItemExport`; a non-success status is an error return;
- lines 70-75: on success the CFData is owned and released by a deferred
  `CFRelease`; nil-or-empty bytes are an error return;
- lines 77-79: the file write; its error is wrapped and returned. -/
def ExportFromKeychain (itemRefsToExport : List CFType)
    (outputFilePath : String) (isAskForPassword : Bool)
    (exportStatus : Int) (exportedData : List Nat)
    (writeResult : Except String Unit) : ExportRun :=
  let acquirePassphraseCString := [NativeEvent.cStringAlloc]
  let paramBuild :
      SecItemImportExportKeyParameters × List NativeEvent × List NativeEvent :=
    if isAskForPassword then
      ({ flags := kSecKeySecurePassphrase, passphrase := none,
         alertTitle := none,
         alertPrompt :=
           some "Enter a password which will be used to protect the exported items" },
       [NativeEvent.cStringAlloc, NativeEvent.cfStringCreate],
       [NativeEvent.cStringFree, NativeEvent.cStringFree])
    else
      ({ flags := 0, passphrase := some "", alertTitle := none,
         alertPrompt := none },
       [NativeEvent.cfStringCreate],
       [NativeEvent.cStringFree])
  let exportParams := paramBuild.1
  let paramEvents := paramBuild.2.1
  let deferredFrees := paramBuild.2.2
  if itemRefsToExport.isEmpty then
    { outcome :=
        ExportOutcome.goPanic "runtime error: index out of range [0] with length 0",
      events := acquirePassphraseCString ++ paramEvents ++ deferredFrees,
      exportCall := none }
  else
    let preCallEvents := acquirePassphraseCString ++ paramEvents ++
      [NativeEvent.cfArrayCreate, NativeEvent.secItemExport]
    let callRecord := some (itemRefsToExport, exportParams)
    if exportStatus = 0 then
      let withData := preCallEvents ++ [NativeEvent.cfDataAcquire]
      if exportedData.length < 1 then
        { outcome := ExportOutcome.err ExportError.emptyExportData,
          events := withData ++ [NativeEvent.cfRelease] ++ deferredFrees,
          exportCall := callRecord }
      else
        match writeResult with
        | Except.error e =>
          { outcome := ExportOutcome.err (ExportError.fileWriteFailed e),
            events := withData ++ [NativeEvent.cfRelease] ++ deferredFrees,
            exportCall := callRecord }
        | Except.ok _ =>
          { outcome := ExportOutcome.ok,
            events := withData ++ [NativeEvent.cfRelease] ++ deferredFrees,
            exportCall := callRecord }
    else
      { outcome := ExportOutcome.err (ExportError.secItemExportFailed exportStatus),
        events := preCallEvents ++ deferredFrees,
        exportCall := callRecord }

/-- Certificate-extraction oracle used by a concrete witness scenario:
extraction fails on the identity reference 2 and succeeds elsewhere. -/
def witnessExtractCert (h : Option CFType) : Except String Nat :=
  if h = some (CFType.ref 2) then Except.error "boom" else Except.ok 0

/-- Validity-check oracle used by concrete witness scenarios: accepts every
certificate. -/
def witnessCheck (_ : Nat) : Except String Unit := Except.ok ()

/-! ## Helper lemmas -/

/-- Unfolding of `FindIdentity` on a successful base query. -/
lemma FindIdentity_ok_def (identities : List CFDict) (identityLabel : String)
    (isFullLabelMatch : Bool) :
    FindIdentity (Except.ok identities) identityLabel isFullLabelMatch =
      if identities.length < 1 then Except.error KCError.notFound
      else findIdentityLoop identityLabel isFullLabelMatch identities := rfl

/-- Per character, the UTF-8 byte size is at most three times the UTF-16
code-unit count (the worst-case ratio CFString uses for
`kCFStringEncodingUTF8`). -/
lemma charUtf8Size_le_three_mul (c : Char) :
    charUtf8Size c ≤ 3 * charUtf16Size c := by
  unfold charUtf8Size charUtf16Size
  split_ifs <;> omega

/-- Summed over a character list, UTF-8 bytes are at most three times the
UTF-16 code units. -/
lemma listUtf8_le_three_mul (l : List Char) :
    (l.map charUtf8Size).sum ≤ 3 * (l.map charUtf16Size).sum := by
  induction l with
  | nil => simp
  | cons c cs ih =>
    simp only [List.map_cons, List.sum_cons, Nat.mul_add]
    have h := charUtf8Size_le_three_mul c
    omega

/-- A buffer of exactly `CFStringGetMaximumSizeForEncoding (length) + 1`
bytes is large enough, so `CFStringGetCString` on it succeeds exactly when
the native conversion itself succeeds. -/
lemma cfStringGetCString_at_max (s : CFString) :
    CFStringGetCString s (CFStringGetMaximumSizeForEncoding (CFStringGetLength s) + 1) =
      if s.getCStringOk then some s.content else none := by
  have h : strUtf8Size s.content + 1 ≤
      3 * strUtf16Size s.content + 1 := by
    have := listUtf8_le_three_mul s.content.data
    unfold strUtf8Size strUtf16Size
    omega
  unfold CFStringGetCString CFStringGetMaximumSizeForEncoding CFStringGetLength
  cases hok : s.getCStringOk
  · simp
  · simp [h]

/-- Behaviour of `getCFDictValueRef` as a function of true key presence:
despite the nil out-pointer passed to `CFDictionaryGetValueIfPresent`, the
presence test is correct, and on the present branch the value comes from the
second lookup. -/
lemma getCFDictValueRef_eq (dict : CFDict) (key : CFString) :
    getCFDictValueRef dict key =
      match cfDictLookup dict key with
      | none => Except.error DictErr.keyNotFound
      | some v => Except.ok (some v) := by
  unfold getCFDictValueRef CFDictionaryGetValueIfPresent CFDictionaryGetValue
  cases h : cfDictLookup dict key <;> simp [h]

/-- Full behaviour of `getCFDictValueUTF8String` as a function of the
dictionary content: absent key, non-string value and failed native
extraction give the corresponding errors; a string value whose native
extraction works is returned as text (the exactly-sized buffer suffices). -/
lemma getCFDictValueUTF8String_eq (dict : CFDict) (key : CFString) :
    getCFDictValueUTF8String dict key =
      match cfDictLookup dict key with
      | none => Except.error DictErr.keyNotFound
      | some (CFType.string s) =>
        if s.getCStringOk then Except.ok s.content
        else Except.error DictErr.cfStringGetCStringFailed
      | some (CFType.ref _) => Except.error DictErr.notAString := by
  unfold getCFDictValueUTF8String getCFDictValueCFStringRef
  rw [getCFDictValueRef_eq]
  cases h : cfDictLookup dict key with
  | none => simp
  | some v =>
    cases v with
    | ref n => simp
    | string s =>
      simp only
      rw [cfStringGetCString_at_max]
      cases hok : s.getCStringOk <;> simp

/-- Looking up `labl` in a constructed identity dictionary. -/
lemma cfDictLookup_mk_labl (l : String) (v : Nat) :
    cfDictLookup (mkIdentityDict l v) (convertCStringToCFString "labl") =
      some (CFType.string (convertCStringToCFString l)) := by
  simp [cfDictLookup, mkIdentityDict, List.find?, convertCStringToCFString]

/-- Looking up `v_Ref` in a constructed identity dictionary. -/
lemma cfDictLookup_mk_vref (l : String) (v : Nat) :
    cfDictLookup (mkIdentityDict l v) (convertCStringToCFString "v_Ref") =
      some (CFType.ref v) := by
  simp [cfDictLookup, mkIdentityDict, List.find?, convertCStringToCFString]

/-- Label extraction on a constructed identity dictionary succeeds and
returns the label. -/
lemma getLabl_mk (l : String) (v : Nat) :
    getCFDictValueUTF8String (mkIdentityDict l v) (convertCStringToCFString "labl") =
      Except.ok l := by
  rw [getCFDictValueUTF8String_eq, cfDictLookup_mk_labl]
  simp [convertCStringToCFString]

/-- Reference extraction on a constructed identity dictionary succeeds and
returns the reference. -/
lemma getVref_mk (l : String) (v : Nat) :
    getCFDictValueRef (mkIdentityDict l v) (convertCStringToCFString "v_Ref") =
      Except.ok (some (CFType.ref v)) := by
  rw [getCFDictValueRef_eq, cfDictLookup_mk_vref]

/-- On a store of constructed identity dictionaries, the filtering loop
succeeds and returns exactly the label-matching entries, in order, with
their references retained. -/
lemma findIdentityLoop_mk (identityLabel : String) (isFullLabelMatch : Bool)
    (items : List (String × Nat)) :
    findIdentityLoop identityLabel isFullLabelMatch
        (items.map (fun p => mkIdentityDict p.1 p.2)) =
      Except.ok
        ((items.filter (fun p => labelMatches isFullLabelMatch identityLabel p.1)).map
          (fun p => { KeychainRef := some (CFType.ref p.2), Label := p.1 })) := by
  induction items with
  | nil => rfl
  | cons p ps ih =>
    simp only [List.map_cons, findIdentityLoop, getLabl_mk, getVref_mk]
    cases h : labelMatches isFullLabelMatch identityLabel p.1 <;>
      simp [h, ih, List.filter_cons]

/-- If the filtering loop returns a list (no abort), then the label
extraction of every entry succeeded, and the reference extraction of every
label-matching entry succeeded: an extraction failure required by the error
policy forces the error return, which carries no list. -/
lemma findIdentityLoop_ok_extractions (identityLabel : String)
    (isFullLabelMatch : Bool) :
    ∀ (ds : List CFDict) (res : List IdentityWithRefModel),
      findIdentityLoop identityLabel isFullLabelMatch ds = Except.ok res →
      ∀ d ∈ ds, ∃ labl,
        getCFDictValueUTF8String d (convertCStringToCFString "labl") =
          Except.ok labl ∧
        (labelMatches isFullLabelMatch identityLabel labl = true →
          ∃ v, getCFDictValueRef d (convertCStringToCFString "v_Ref") =
            Except.ok v) := by
  intro ds
  induction ds with
  | nil => intro res _ d hd; exact absurd hd (List.not_mem_nil d)
  | cons d0 rest ih =>
    intro res hres d hd
    rw [findIdentityLoop] at hres
    cases hl : getCFDictValueUTF8String d0 (convertCStringToCFString "labl") with
    | error e => simp [hl] at hres
    | ok labl =>
      simp only [hl] at hres
      cases hm : labelMatches isFullLabelMatch identityLabel labl with
      | false =>
        simp only [hm, Bool.false_eq_true, if_false] at hres
        rcases List.mem_cons.mp hd with rfl | hmem
        · exact ⟨labl, hl, fun hc => absurd hc (by simp [hm])⟩
        · exact ih res hres d hmem
      | true =>
        simp only [hm, if_true] at hres
        cases hv : getCFDictValueRef d0 (convertCStringToCFString "v_Ref") with
        | error e => simp [hv] at hres
        | ok v =>
          simp only [hv] at hres
          cases hrest : findIdentityLoop identityLabel isFullLabelMatch rest with
          | error e => simp [hrest] at hres
          | ok l =>
            rcases List.mem_cons.mp hd with rfl | hmem
            · exact ⟨labl, hl, fun _ => ⟨v, hv⟩⟩
            · exact ih l hrest d hmem

/-- When `FindIdentity` found a (possibly empty) list, `FindAndValidateIdentity`
is exactly the validation loop over it. -/
lemma findAndValidateIdentity_eq_loop {α : Type}
    (searchResult : Except Int (List CFDict))
    (extractCert : Option CFType → Except String α)
    (check : α → Except String Unit)
    (identityLabel : String) (isFullLabelMatch : Bool)
    (found : List IdentityWithRefModel)
    (h : FindIdentity searchResult identityLabel isFullLabelMatch =
      Except.ok found) :
    FindAndValidateIdentity searchResult extractCert check identityLabel
        isFullLabelMatch = favLoop extractCert check found := by
  unfold FindAndValidateIdentity
  rw [h]
  cases found with
  | nil => simp [favLoop]
  | cons r rest => simp

/-- When every candidate of a list can have its certificate extracted, the
validation loop returns exactly the candidates passing the validity check,
in order, with no error, having extracted and checked every candidate. -/
lemma favLoop_all_extract_ok {α : Type}
    (extractCert : Option CFType → Except String α)
    (check : α → Except String Unit) :
    ∀ (l : List IdentityWithRefModel),
      (∀ r ∈ l, ∃ c, extractCert r.KeychainRef = Except.ok c) →
      favLoop extractCert check l =
        { identities := l.filter (favKeep extractCert check), err := none,
          certExtractionCalls := l.length, validityCheckCalls := l.length } := by
  intro l
  induction l with
  | nil => intro _; rfl
  | cons r rest ih =>
    intro hall
    obtain ⟨c, hc⟩ := hall r (List.mem_cons_self r rest)
    have hrest := ih (fun x hx => hall x (List.mem_cons_of_mem r hx))
    rw [favLoop, hc]
    cases hchk : check c with
    | error e =>
      simp only [hrest, List.filter_cons, favKeep, hc, hchk]
      simp [List.length_cons]
    | ok u =>
      simp only [hrest, List.filter_cons, favKeep, hc, hchk]
      simp [List.length_cons]

/-- When certificate extraction succeeds on a prefix and fails on the next
candidate, the validation loop aborts there: it returns the
validity-passing part of the prefix paired with the wrapped extraction
error, having extracted `prefix + 1` certificates and checked only the
prefix. -/
lemma favLoop_abort {α : Type}
    (extractCert : Option CFType → Except String α)
    (check : α → Except String Unit) :
    ∀ (pre : List IdentityWithRefModel) (r : IdentityWithRefModel)
      (post : List IdentityWithRefModel) (e : String),
      (∀ x ∈ pre, ∃ c, extractCert x.KeychainRef = Except.ok c) →
      extractCert r.KeychainRef = Except.error e →
      favLoop extractCert check (pre ++ r :: post) =
        { identities := pre.filter (favKeep extractCert check),
          err := some (FAVError.certReadFailed e),
          certExtractionCalls := pre.length + 1,
          validityCheckCalls := pre.length } := by
  intro pre
  induction pre with
  | nil =>
    intro r post e _ hr
    rw [List.nil_append, favLoop, hr]
    rfl
  | cons x xs ih =>
    intro r post e hall hr
    obtain ⟨c, hc⟩ := hall x (List.mem_cons_self x xs)
    have hrest := ih r post e (fun y hy => hall y (List.mem_cons_of_mem x hy)) hr
    rw [List.cons_append, favLoop, hc]
    cases hchk : check c with
    | error e2 =>
      simp only [hrest, List.filter_cons, favKeep, hc, hchk]
      simp [List.length_cons]
    | ok u =>
      simp only [hrest, List.filter_cons, favKeep, hc, hchk]
      simp [List.length_cons]

/-! ## Claim theorems -/

/-- C4: when the base query of `FindIdentity` returns zero identities, the
call fails with the not-found error — it never returns an empty list for
that case. -/
theorem findIdentity_empty_store_notFound :
    ∀ (identityLabel : String) (isFullLabelMatch : Bool),
      FindIdentity (Except.ok []) identityLabel isFullLabelMatch =
        Except.error KCError.notFound := by
  intro identityLabel isFullLabelMatch
  rfl

/-- C5: on a store of identity entries, `FindIdentity` returns exactly the
entries whose label equals the query label (full match) or contains it as a
case-sensitive substring (otherwise), in store order; every returned record
label satisfies the corresponding predicate because the result is literally
the filter by `labelMatches`. -/
theorem findIdentity_label_filter :
    ∀ (items : List (String × Nat)) (identityLabel : String)
      (isFullLabelMatch : Bool),
      items ≠ [] →
      FindIdentity (Except.ok (items.map (fun p => mkIdentityDict p.1 p.2)))
          identityLabel isFullLabelMatch =
        Except.ok
          ((items.filter
              (fun p => labelMatches isFullLabelMatch identityLabel p.1)).map
            (fun p => { KeychainRef := some (CFType.ref p.2), Label := p.1 })) := by
  intro items identityLabel isFullLabelMatch hne
  have hlen : ¬ ((items.map (fun p => mkIdentityDict p.1 p.2)).length < 1) := by
    simp only [List.length_map]
    cases items with
    | nil => exact absurd rfl hne
    | cons a as => simp
  rw [FindIdentity_ok_def, if_neg hlen]
  exact findIdentityLoop_mk identityLabel isFullLabelMatch items

/-- C5 witness: the example store of the specification — labels
"iPhone Developer: A", "iPhone Developer: B", "Other"; the substring query
"iPhone Developer" returns exactly the first two, in store order. -/
theorem findIdentity_label_filter_witness :
    FindIdentity
        (Except.ok
          ([("iPhone Developer: A", 1), ("iPhone Developer: B", 2),
            ("Other", 3)].map (fun p => mkIdentityDict p.1 p.2)))
        "iPhone Developer" false =
      Except.ok
        [{ KeychainRef := some (CFType.ref 1), Label := "iPhone Developer: A" },
         { KeychainRef := some (CFType.ref 2), Label := "iPhone Developer: B" }] :=
  (findIdentity_label_filter
      [("iPhone Developer: A", 1), ("iPhone Developer: B", 2), ("Other", 3)]
      "iPhone Developer" false (by decide)).trans (by decide)

/-- C6: `FindIdentity` is all-or-nothing on extraction errors.  If the call
returns a list at all, then the label extraction of every entry succeeded
and the reference extraction of every label-matching entry succeeded;
contrapositively, any such extraction failure forces the error return, whose
constructor carries no list — accumulated matches are discarded, and a
partial list is never returned with success. -/
theorem findIdentity_all_or_nothing :
    ∀ (dicts : List CFDict) (identityLabel : String) (isFullLabelMatch : Bool)
      (res : List IdentityWithRefModel),
      FindIdentity (Except.ok dicts) identityLabel isFullLabelMatch =
        Except.ok res →
      ∀ d ∈ dicts, ∃ labl,
        getCFDictValueUTF8String d (convertCStringToCFString "labl") =
          Except.ok labl ∧
        (labelMatches isFullLabelMatch identityLabel labl = true →
          ∃ v, getCFDictValueRef d (convertCStringToCFString "v_Ref") =
            Except.ok v) := by
  intro dicts identityLabel isFullLabelMatch res h d hd
  rw [FindIdentity_ok_def] at h
  by_cases hlen : dicts.length < 1
  · rw [if_pos hlen] at h
    exact absurd h (by simp)
  · rw [if_neg hlen] at h
    exact findIdentityLoop_ok_extractions identityLabel isFullLabelMatch
      dicts res h d hd

/-- C6 witness: a concrete successful call certifies that the extractions of
its single entry succeeded. -/
theorem findIdentity_all_or_nothing_witness :
    ∃ labl,
      getCFDictValueUTF8String (mkIdentityDict "A" 1)
          (convertCStringToCFString "labl") = Except.ok labl ∧
      (labelMatches true "A" labl = true →
        ∃ v, getCFDictValueRef (mkIdentityDict "A" 1)
            (convertCStringToCFString "v_Ref") = Except.ok v) :=
  findIdentity_all_or_nothing [mkIdentityDict "A" 1] "A" true
    [{ KeychainRef := some (CFType.ref 1), Label := "A" }] (by decide)
    (mkIdentityDict "A" 1) (List.mem_cons_self _ _)

/-- C3: `FindAndValidateIdentity` processes the found candidates in
discovery order.  When certificate extraction succeeds on all of them, the
result is exactly the subsequence passing the validity check (validation
failures are skipped, not aborted), with no error, every candidate having
been extracted and checked.  When extraction succeeds on a prefix and fails
on the next candidate, the whole call aborts there, returning the
validity-passing part of the accumulated prefix paired with the wrapped
extraction error, without touching the remaining candidates. -/
theorem findAndValidateIdentity_skip_and_abort (α : Type) :
    ∀ (searchResult : Except Int (List CFDict))
      (extractCert : Option CFType → Except String α)
      (check : α → Except String Unit)
      (identityLabel : String) (isFullLabelMatch : Bool)
      (found : List IdentityWithRefModel),
      FindIdentity searchResult identityLabel isFullLabelMatch =
        Except.ok found →
      ((∀ r ∈ found, ∃ c, extractCert r.KeychainRef = Except.ok c) →
        FindAndValidateIdentity searchResult extractCert check identityLabel
            isFullLabelMatch =
          { identities := found.filter (favKeep extractCert check),
            err := none, certExtractionCalls := found.length,
            validityCheckCalls := found.length }) ∧
      (∀ (pre : List IdentityWithRefModel) (r : IdentityWithRefModel)
          (post : List IdentityWithRefModel) (e : String),
        found = pre ++ r :: post →
        (∀ x ∈ pre, ∃ c, extractCert x.KeychainRef = Except.ok c) →
        extractCert r.KeychainRef = Except.error e →
        FindAndValidateIdentity searchResult extractCert check identityLabel
            isFullLabelMatch =
          { identities := pre.filter (favKeep extractCert check),
            err := some (FAVError.certReadFailed e),
            certExtractionCalls := pre.length + 1,
            validityCheckCalls := pre.length }) := by
  intro searchResult extractCert check identityLabel isFullLabelMatch found h
  constructor
  · intro hall
    rw [findAndValidateIdentity_eq_loop searchResult extractCert check
      identityLabel isFullLabelMatch found h]
    exact favLoop_all_extract_ok extractCert check found hall
  · intro pre r post e hsplit hpre hr
    rw [findAndValidateIdentity_eq_loop searchResult extractCert check
      identityLabel isFullLabelMatch found h, hsplit]
    exact favLoop_abort extractCert check pre r post e hpre hr

/-- C3 witness: two matching candidates; extraction succeeds on the first
and fails on the second, so the call aborts returning the first candidate
(which passed validation) paired with the wrapped error, after two
extraction attempts and one validity check. -/
theorem findAndValidateIdentity_skip_and_abort_witness :
    FindAndValidateIdentity
        (Except.ok [mkIdentityDict "A" 1, mkIdentityDict "B" 2])
        witnessExtractCert witnessCheck "" false =
      { identities := [{ KeychainRef := some (CFType.ref 1), Label := "A" }],
        err := some (FAVError.certReadFailed "boom"),
        certExtractionCalls := 2, validityCheckCalls := 1 } := by
  have hpre : ∀ x ∈ [({ KeychainRef := some (CFType.ref 1), Label := "A" } :
      IdentityWithRefModel)], ∃ c, witnessExtractCert x.KeychainRef =
        Except.ok c := by
    intro x hx
    rw [List.mem_singleton] at hx
    subst hx
    exact ⟨0, by decide⟩
  have h := (findAndValidateIdentity_skip_and_abort Nat
      (Except.ok [mkIdentityDict "A" 1, mkIdentityDict "B" 2])
      witnessExtractCert witnessCheck "" false
      [{ KeychainRef := some (CFType.ref 1), Label := "A" },
       { KeychainRef := some (CFType.ref 2), Label := "B" }]
      (by decide)).2
    [{ KeychainRef := some (CFType.ref 1), Label := "A" }]
    { KeychainRef := some (CFType.ref 2), Label := "B" } [] "boom" rfl hpre
    (by decide)
  exact h.trans (by decide)

/-- C10: when the store returns at least one identity but none passes the
label filter, `FindIdentity` returns an empty list with no error, and
`FindAndValidateIdentity` then returns an empty list with no error without
performing any certificate-extraction or validity-check call. -/
theorem findIdentity_noMatch_empty_ok (α : Type) :
    ∀ (items : List (String × Nat))
      (extractCert : Option CFType → Except String α)
      (check : α → Except String Unit)
      (identityLabel : String) (isFullLabelMatch : Bool),
      items ≠ [] →
      (∀ p ∈ items, labelMatches isFullLabelMatch identityLabel p.1 = false) →
      FindIdentity (Except.ok (items.map (fun p => mkIdentityDict p.1 p.2)))
          identityLabel isFullLabelMatch = Except.ok [] ∧
      FindAndValidateIdentity
          (Except.ok (items.map (fun p => mkIdentityDict p.1 p.2)))
          extractCert check identityLabel isFullLabelMatch =
        { identities := [], err := none, certExtractionCalls := 0,
          validityCheckCalls := 0 } := by
  intro items extractCert check identityLabel isFullLabelMatch hne hnomatch
  have hlen : ¬ ((items.map (fun p => mkIdentityDict p.1 p.2)).length < 1) := by
    simp only [List.length_map]
    cases items with
    | nil => exact absurd rfl hne
    | cons a as => simp
  have hfi : FindIdentity
      (Except.ok (items.map (fun p => mkIdentityDict p.1 p.2)))
      identityLabel isFullLabelMatch = Except.ok [] := by
    rw [FindIdentity_ok_def, if_neg hlen, findIdentityLoop_mk]
    have : items.filter
        (fun p => labelMatches isFullLabelMatch identityLabel p.1) = [] := by
      rw [List.filter_eq_nil_iff]
      intro a ha
      simp [hnomatch a ha]
    rw [this]
    rfl
  refine ⟨hfi, ?_⟩
  rw [findAndValidateIdentity_eq_loop _ extractCert check _ _ [] hfi]
  rfl

/-- C10 witness: the store holds only a non-matching label, so both calls
return empty with no error and no extraction or validation happens. -/
theorem findIdentity_noMatch_empty_ok_witness :
    FindIdentity (Except.ok ([(("Other" : String), 3)].map
        (fun p => mkIdentityDict p.1 p.2))) "iPhone Developer" false =
      Except.ok [] ∧
    FindAndValidateIdentity (Except.ok ([(("Other" : String), 3)].map
        (fun p => mkIdentityDict p.1 p.2)))
        (fun _ => (Except.ok 0 : Except String Nat)) (fun _ => Except.ok ())
        "iPhone Developer" false =
      { identities := [], err := none, certExtractionCalls := 0,
        validityCheckCalls := 0 } :=
  findIdentity_noMatch_empty_ok Nat [(("Other" : String), 3)]
    (fun _ => (Except.ok 0 : Except String Nat)) (fun _ => Except.ok ())
    "iPhone Developer" false (by decide) (by decide)

/-- C7 counterexample: an absent key DOES produce the key-not-found error —
on the empty dictionary, `getCFDictValueRef` rejects the lookup, refuting
the claim that the existence check reports every key as present. -/
theorem getCFDictValueRef_absent_key_errors :
    getCFDictValueRef [] (convertCStringToCFString "labl") =
      Except.error DictErr.keyNotFound := by
  rfl

/-- C7 amended: the existence check does pass the nil value of the unset
result variable (a NULL out-pointer) instead of its address, so the presence
call never writes the result value; but by the documented semantics of
`CFDictionaryGetValueIfPresent` a NULL out-pointer still yields the correct
presence boolean, so an absent key produces the key-not-found error, and a
present key's value is obtained by the second, unconditional
`CFDictionaryGetValue` call. -/
theorem getCFDictValueRef_presence_faithful :
    ∀ (dict : CFDict) (key : CFString),
      (CFDictionaryGetValueIfPresent dict key true).2 = none ∧
      getCFDictValueRef dict key =
        match cfDictLookup dict key with
        | none => Except.error DictErr.keyNotFound
        | some v => Except.ok (some v) := by
  intro dict key
  refine ⟨?_, getCFDictValueRef_eq dict key⟩
  unfold CFDictionaryGetValueIfPresent
  cases h : cfDictLookup dict key <;> simp [h]

/-- C9: `getCFDictValueUTF8String` fails whenever the key is absent, the
value is not of string type, or the native extraction fails; on success it
returns the decoded text — and the buffer it extracts into, of exactly the
worst-case UTF-8 expansion of the string length plus one terminator byte,
always suffices for the extraction. -/
theorem getCFDictValueUTF8String_conversion :
    (∀ (dict : CFDict) (key : CFString),
      getCFDictValueUTF8String dict key =
        match cfDictLookup dict key with
        | none => Except.error DictErr.keyNotFound
        | some (CFType.string s) =>
          if s.getCStringOk then Except.ok s.content
          else Except.error DictErr.cfStringGetCStringFailed
        | some (CFType.ref _) => Except.error DictErr.notAString) ∧
    (∀ s : CFString,
      CFStringGetCString s
          (CFStringGetMaximumSizeForEncoding (CFStringGetLength s) + 1) =
        if s.getCStringOk then some s.content else none) :=
  ⟨getCFDictValueUTF8String_eq, cfStringGetCString_at_max⟩

/-- C1 (code evaluation at the failing input): on an empty identity
sequence, `ExportFromKeychain` does NOT return an invalid-argument error and
does NOT perform zero native calls — it first allocates the passphrase C
string and a CFString (plus the prompt C string in the interactive branch),
then hits the Go runtime panic of `&itemRefsToExport[0]`, never reaching
`SecItemExport`. -/
theorem exportFromKeychain_empty_input_panics :
    ((ExportFromKeychain [] "./Identities.p12" false 0 [] (Except.ok ())).outcome =
        ExportOutcome.goPanic "runtime error: index out of range [0] with length 0" ∧
      (ExportFromKeychain [] "./Identities.p12" false 0 [] (Except.ok ())).exportCall =
        none ∧
      nativeAcquireTotal
        (ExportFromKeychain [] "./Identities.p12" false 0 [] (Except.ok ())).events = 2) ∧
    ((ExportFromKeychain [] "./Identities.p12" true 0 [] (Except.ok ())).outcome =
        ExportOutcome.goPanic "runtime error: index out of range [0] with length 0" ∧
      (ExportFromKeychain [] "./Identities.p12" true 0 [] (Except.ok ())).exportCall =
        none ∧
      nativeAcquireTotal
        (ExportFromKeychain [] "./Identities.p12" true 0 [] (Except.ok ())).events = 3) := by
  decide

/-- C2 (code evaluation at the failing input): on a fully successful export
of one identity, the native acquisitions outnumber the releases — with
`isAskForPassword=false` four objects are acquired (passphrase C string,
passphrase CFString, export array, result data) but only two are released
(C string free, result-data release): the passphrase CFString and the export
array leak; with `isAskForPassword=true` five are acquired and three
released (the prompt CFString and the array leak).  The claimed
acquire/release balance fails. -/
theorem exportFromKeychain_leaks_transients :
    ((ExportFromKeychain [CFType.ref 7] "./Identities.p12" false 0 [1, 2, 3]
          (Except.ok ())).outcome = ExportOutcome.ok ∧
      nativeAcquireTotal
        (ExportFromKeychain [CFType.ref 7] "./Identities.p12" false 0 [1, 2, 3]
          (Except.ok ())).events = 4 ∧
      nativeReleaseTotal
        (ExportFromKeychain [CFType.ref 7] "./Identities.p12" false 0 [1, 2, 3]
          (Except.ok ())).events = 2) ∧
    ((ExportFromKeychain [CFType.ref 7] "./Identities.p12" true 0 [1, 2, 3]
          (Except.ok ())).outcome = ExportOutcome.ok ∧
      nativeAcquireTotal
        (ExportFromKeychain [CFType.ref 7] "./Identities.p12" true 0 [1, 2, 3]
          (Except.ok ())).events = 5 ∧
      nativeReleaseTotal
        (ExportFromKeychain [CFType.ref 7] "./Identities.p12" true 0 [1, 2, 3]
          (Except.ok ())).events = 3) := by
  decide

/-- C8: whenever `ExportFromKeychain` reaches the native export call (any
non-empty input, any export status, data and write outcome), the parameter
struct passed to `SecItemExport` has the secure-passphrase flag exactly when
`isAskForPassword` is set — with it an informational prompt and no explicit
passphrase, without it flag zero and an explicit empty passphrase string. -/
theorem exportFromKeychain_passphrase_params :
    ∀ (itemRefsToExport : List CFType) (outputFilePath : String)
      (isAskForPassword : Bool) (exportStatus : Int)
      (exportedData : List Nat) (writeResult : Except String Unit),
      itemRefsToExport ≠ [] →
      (ExportFromKeychain itemRefsToExport outputFilePath isAskForPassword
          exportStatus exportedData writeResult).exportCall =
        some (itemRefsToExport,
          if isAskForPassword then
            { flags := kSecKeySecurePassphrase, passphrase := none,
              alertTitle := none,
              alertPrompt :=
                some "Enter a password which will be used to protect the exported items" }
          else
            { flags := 0, passphrase := some "", alertTitle := none,
              alertPrompt := none }) := by
  intro itemRefsToExport outputFilePath isAskForPassword exportStatus
    exportedData writeResult hne
  cases itemRefsToExport with
  | nil => exact absurd rfl hne
  | cons a as =>
    cases isAskForPassword <;>
      rcases writeResult with e | u <;>
        by_cases hst : exportStatus = 0 <;>
          by_cases hd : exportedData.length < 1 <;>
            simp [ExportFromKeychain, hst, hd]

/-- C8 witness: with one identity handle, the fixed-empty mode passes flag
zero and an explicit empty passphrase, and the interactive mode passes the
secure-passphrase flag with no explicit passphrase. -/
theorem exportFromKeychain_passphrase_params_witness :
    (ExportFromKeychain [CFType.ref 1] "./Identities.p12" false 0 [1]
        (Except.ok ())).exportCall =
      some ([CFType.ref 1],
        { flags := 0, passphrase := some "", alertTitle := none,
          alertPrompt := none }) ∧
    (ExportFromKeychain [CFType.ref 1] "./Identities.p12" true 0 [1]
        (Except.ok ())).exportCall =
      some ([CFType.ref 1],
        { flags := kSecKeySecurePassphrase, passphrase := none,
          alertTitle := none,
          alertPrompt :=
            some "Enter a password which will be used to protect the exported items" }) :=
  ⟨(exportFromKeychain_passphrase_params [CFType.ref 1] "./Identities.p12"
      false 0 [1] (Except.ok ()) (by decide)).trans (by decide),
   (exportFromKeychain_passphrase_params [CFType.ref 1] "./Identities.p12"
      true 0 [1] (Except.ok ()) (by decide)).trans (by decide)⟩

end Osxkeychain
